import Mathlib

/-!
Verification of the businesssearcher listing pipeline.

This file gives a shallow embedding of the repository / eligibility-filter /
fetch-orchestrator code of the `businesssearcher` repository
(`business_searcher/models/repository.py`, `business_searcher/models/listing.py`,
`business_searcher/fetchers/seek.py`, `business_searcher/main.py`) and proves
properties about it.

Modelling conventions:
- The SQLAlchemy `listings` table is a `List ListingORM`; `id` is the primary
  key (`scalar_one_or_none` lookups become `List.find?`, object mutation plus
  `commit` becomes first-occurrence replacement).
- Python `datetime` values are `Int` timestamps in seconds; `timedelta.days`
  is floor division by 86400 (`Int.fdiv`), matching Python semantics.
- Python truthiness of optional ints / strings / lists is made explicit by the
  `truthyInt` / `truthyStr` / `truthyList` helpers (`0`, `""`, `[]`, `None`
  are falsy).
- `float` division of ints (`ebitda / revenue`) is modelled exactly as
  rational division on `ℚ`.
- Calls to `datetime.utcnow()` become an explicit `now : Int` argument.
-/

/-- Python truthiness of an `Optional[int]`: `None` and `0` are falsy. -/
def truthyInt : Option Int → Bool
  | none => false
  | some n => n != 0

/-- Python truthiness of an `Optional[str]`: `None` and `""` are falsy. -/
def truthyStr : Option String → Bool
  | none => false
  | some s => !s.isEmpty

/-- Python truthiness of an `Optional[list]`: `None` and `[]` are falsy. -/
def truthyList : Option (List String) → Bool
  | none => false
  | some l => !l.isEmpty

/-- Python `str.lower()` (ASCII case folding, which covers all strings the
    program manipulates). -/
def strLower (s : String) : String := String.mk (s.data.map Char.toLower)

/-- Contiguous-substring test on character lists, the semantics of Python
    `needle in hay` for strings. -/
def isSubstr (needle : List Char) : List Char → Bool
  | [] => needle.isEmpty
  | c :: rest => needle.isPrefixOf (c :: rest) || isSubstr needle rest

/-- Python `needle in hay` on strings. -/
def strContains (hay needle : String) : Bool := isSubstr needle.data hay.data

/-- Insert a comma after every third character of a reversed digit list;
    helper for Python `format(n, ",")`. -/
def insertCommasRev : List Char → List Char
  | a :: b :: c :: d :: rest => a :: b :: c :: ',' :: insertCommasRev (d :: rest)
  | l => l

/-- Python `f"{n:,}"`: decimal rendering with thousands separators. -/
def formatComma (n : Int) : String :=
  (if n < 0 then "-" else "") ++
    String.mk ((insertCommasRev (Nat.toDigits 10 n.natAbs).reverse).reverse)

/-! ## Data model (`business_searcher/models/listing.py`) -/

/-- The `ListingStatus` enum values. -/
def ListingStatus.NEW : String := "new"

/-- The `ListingStatus.PREFILTER_PASS` enum value. -/
def ListingStatus.PREFILTER_PASS : String := "prefilter_pass"

/-- The `ListingStatus.PREFILTER_FAIL` enum value. -/
def ListingStatus.PREFILTER_FAIL : String := "prefilter_fail"

/-- The `raw_data` envelope the seek fetcher stores on a listing
    (`seek.py`, `fetch`): broker name, listing type, relative posted date,
    structured JS data (modelled as an association list) and the
    `detail_fetched` flag. -/
structure RawData where
  broker_name : Option String
  listing_type : Option String
  posted_date_relative : Option String
  structured_data : List (String × String)
  detail_fetched : Bool
deriving DecidableEq, Repr

/-- The pydantic `BusinessListing` model. `posted_date` is an optional
    timestamp (seconds). -/
structure BusinessListing where
  id : String
  source : String
  title : String
  description : Option String := none
  price : Option Int := none
  revenue : Option Int := none
  ebitda : Option Int := none
  location : Option String := none
  industry : Option String := none
  url : Option String := none
  posted_date : Option Int := none
  raw_data : Option RawData := none
deriving DecidableEq, Repr

/-- A row of the `listings` table (`ListingORM`).  Research-result columns
    that no claim touches are omitted; derived metrics are exact rationals. -/
structure ListingORM where
  id : String
  source : String
  title : String
  description : Option String
  price : Option Int
  revenue : Option Int
  ebitda : Option Int
  location : Option String
  industry : Option String
  url : Option String
  posted_date : Option Int
  ebitda_margin : Option ℚ
  asking_multiple : Option ℚ
  raw_data : Option RawData
  status : String
  first_seen_at : Int
  last_updated_at : Int
  processed_at : Option Int
deriving DecidableEq, Repr

/-! ## Repository (`business_searcher/models/repository.py`) -/

/-- `ListingRepository.get_by_id`: first row whose `id` matches
    (`scalar_one_or_none` under the primary-key invariant). -/
def get_by_id (db : List ListingORM) (listing_id : String) : Option ListingORM :=
  db.find? (fun r => r.id == listing_id)

/-- `ListingRepository.exists`: membership test on the pair `(id, source)`. -/
def existsListing (db : List ListingORM) (listing_id source : String) : Bool :=
  db.any (fun r => r.id == listing_id && r.source == source)

/-- Replace the first row whose `id` matches by `newRow` (SQLAlchemy object
    mutation followed by `commit`). -/
def replaceById (db : List ListingORM) (listing_id : String) (newRow : ListingORM) :
    List ListingORM :=
  match db with
  | [] => []
  | r :: rest =>
    if r.id == listing_id then newRow :: rest
    else r :: replaceById rest listing_id newRow

/-- Number of stored rows whose `id` matches. -/
def countId (db : List ListingORM) (listing_id : String) : Nat :=
  (db.filter (fun r => r.id == listing_id)).length

/-- `ListingRepository._create`: build a new row, computing the derived
    metrics under the Python guards
    `if listing.ebitda and listing.revenue and listing.revenue > 0` and
    `if listing.price and listing.ebitda and listing.ebitda > 0`, and append
    it to the table.  Returns the new table and the created row. -/
def _create (db : List ListingORM) (listing : BusinessListing) (now : Int) :
    List ListingORM × ListingORM :=
  let ebitda_margin : Option ℚ :=
    if truthyInt listing.ebitda && truthyInt listing.revenue &&
        decide (listing.revenue.getD 0 > 0) then
      some ((listing.ebitda.getD 0 : ℚ) / (listing.revenue.getD 0 : ℚ))
    else none
  let asking_multiple : Option ℚ :=
    if truthyInt listing.price && truthyInt listing.ebitda &&
        decide (listing.ebitda.getD 0 > 0) then
      some ((listing.price.getD 0 : ℚ) / (listing.ebitda.getD 0 : ℚ))
    else none
  let orm : ListingORM :=
    { id := listing.id
      source := listing.source
      title := listing.title
      description := listing.description
      price := listing.price
      revenue := listing.revenue
      ebitda := listing.ebitda
      location := listing.location
      industry := listing.industry
      url := listing.url
      posted_date := listing.posted_date
      ebitda_margin := ebitda_margin
      asking_multiple := asking_multiple
      raw_data := listing.raw_data
      status := ListingStatus.NEW
      first_seen_at := now
      last_updated_at := now
      processed_at := none }
  (db ++ [orm], orm)

/-- `ListingRepository._update`: overwrite the mutable fields of `existing`,
    bump `last_updated_at`, and recompute each derived metric only when its
    guard holds (otherwise the previously stored value is left in place,
    exactly as in the source).  Returns the new table and the updated row. -/
def _update (db : List ListingORM) (existing : ListingORM)
    (listing : BusinessListing) (now : Int) : List ListingORM × ListingORM :=
  let new_margin : Option ℚ :=
    if truthyInt listing.ebitda && truthyInt listing.revenue &&
        decide (listing.revenue.getD 0 > 0) then
      some ((listing.ebitda.getD 0 : ℚ) / (listing.revenue.getD 0 : ℚ))
    else existing.ebitda_margin
  let new_multiple : Option ℚ :=
    if truthyInt listing.price && truthyInt listing.ebitda &&
        decide (listing.ebitda.getD 0 > 0) then
      some ((listing.price.getD 0 : ℚ) / (listing.ebitda.getD 0 : ℚ))
    else existing.asking_multiple
  let e3 : ListingORM :=
    { existing with
      title := listing.title
      description := listing.description
      price := listing.price
      revenue := listing.revenue
      ebitda := listing.ebitda
      location := listing.location
      industry := listing.industry
      url := listing.url
      posted_date := listing.posted_date
      raw_data := listing.raw_data
      last_updated_at := now
      ebitda_margin := new_margin
      asking_multiple := new_multiple }
  (replaceById db existing.id e3, e3)

/-- `ListingRepository.save`: update the row found by `id`, else create. -/
def save (db : List ListingORM) (listing : BusinessListing) (now : Int) :
    List ListingORM × ListingORM :=
  match get_by_id db listing.id with
  | some existing => _update db existing listing now
  | none => _create db listing now

/-- Result of `save_with_dedup_check`: the new table, the saved row, and the
    `is_new` flag. -/
structure SaveOutcome where
  db : List ListingORM
  orm : ListingORM
  is_new : Bool
deriving DecidableEq, Repr

/-- `ListingRepository.save_with_dedup_check`: compute `is_new` from
    `exists(id, source)` and then `save` (which looks up by `id` alone). -/
def save_with_dedup_check (db : List ListingORM) (listing : BusinessListing)
    (now : Int) : SaveOutcome :=
  let is_new := !existsListing db listing.id listing.source
  let res := save db listing now
  { db := res.1, orm := res.2, is_new := is_new }

/-- `ListingRepository.update_status`: look the row up by `id`; if absent do
    nothing, else set `status` and (when given) `processed_at`.  The function
    is total: no code path raises. -/
def update_status (db : List ListingORM) (listing_id : String) (status : String)
    (processed_at : Option Int) : List ListingORM :=
  match get_by_id db listing_id with
  | none => db
  | some orm =>
    let orm1 := { orm with status := status }
    let orm2 :=
      match processed_at with
      | some t => { orm1 with processed_at := some t }
      | none => orm1
    replaceById db listing_id orm2

/-! ## Eligibility filter (`business_searcher/models/listing.py`, `ListingFilter`) -/

/-- Default `excluded_industries` keyword list. -/
def defaultExcludedIndustries : List String :=
  ["retail",
   "food & drink",
   "coffee", "cafe", "restaurant",
   "pub", "bar",
   "accommodation", "tourism", "leisure",
   "takeaway", "hospitality",
   "franchise",
   "master franchise",
   "driving school", "driving",
   "beauty", "hair", "spa",
   "massage", "pilates", "gym", "fitness", "f45",
   "mechanic", "automotive", "tyre", "car detailing",
   "electrical", "electrical services",
   "handyman", "home services",
   "cleaning", "maintenance", "dry cleaning", "laundromat", "laundry",
   "fencing",
   "sports",
   "pest control",
   "taxi", "transport", "chauffeur", "courier", "freight", "truck",
   "pet grooming", "dog grooming",
   "garden", "lawn", "mowing", "nursery", "landscaping",
   "removals",
   "air conditioning", "air-con",
   "carpet", "flooring",
   "refund"]

/-- Default `excluded_title_keywords` list. -/
def defaultExcludedTitleKeywords : List String :=
  ["franchise",
   "pest control",
   "driving school",
   "driving",
   "massage",
   "pilates",
   "gym",
   "fitness",
   "f45",
   "beauty",
   "hair salon",
   "dry cleaning",
   "laundromat",
   "laundry",
   "handyman",
   "garden",
   "lawn",
   "mowing",
   "nursery",
   "courier",
   "taxi",
   "refund",
   "dog grooming",
   "pet grooming"]

/-- Default `franchise_allowed_industries` list. -/
def defaultFranchiseAllowed : List String :=
  ["mortgage",
   "finance",
   "insurance",
   "legal",
   "accounting",
   "business services",
   "real estate"]

/-- The pydantic `ListingFilter` configuration with its field defaults. -/
structure ListingFilter where
  max_price : Int := 1000000
  max_days_listed : Option Int := some 60
  preferred_industries : Option (List String) := none
  excluded_industries : Option (List String) := some defaultExcludedIndustries
  excluded_title_keywords : Option (List String) := some defaultExcludedTitleKeywords
  franchise_allowed_industries : Option (List String) := some defaultFranchiseAllowed
deriving DecidableEq, Repr

/-- Price-check condition: `listing.price and listing.price > self.max_price`. -/
def priceHit (cfg : ListingFilter) (listing : BusinessListing) : Bool :=
  truthyInt listing.price && decide (listing.price.getD 0 > cfg.max_price)

/-- Price-check failure message
    (Python `f"Price ${listing.price:,} exceeds max ${self.max_price:,}"`). -/
def priceMsg (cfg : ListingFilter) (listing : BusinessListing) : String :=
  let p := formatComma (listing.price.getD 0)
  let m := formatComma cfg.max_price
  s!"Price ${p} exceeds max ${m}"

/-- First excluded-industry keyword contained (case-insensitively) in the
    listing industry, scanning in list order — the loop with `break`. -/
def industryHit (cfg : ListingFilter) (listing : BusinessListing) : Option String :=
  if truthyList cfg.excluded_industries && truthyStr listing.industry then
    (cfg.excluded_industries.getD []).find?
      (fun excluded => strContains (strLower (listing.industry.getD "")) (strLower excluded))
  else none

/-- Industry-exclusion failure message. -/
def industryMsg (listing : BusinessListing) (excluded : String) : String :=
  let ind := listing.industry.getD ""
  s!"Industry \x27{ind}\x27 matches exclusion \x27{excluded}\x27"

/-- The franchise forgiveness test:
    `any(allowed in industry_lower for allowed in franchise_allowed_industries)`. -/
def franchiseAllowedHit (cfg : ListingFilter) (listing : BusinessListing) : Bool :=
  (cfg.franchise_allowed_industries.getD []).any
    (fun allowed => strContains (strLower (listing.industry.getD "")) allowed)

/-- First excluded-title keyword contained in the lowercased title that is not
    a forgiven `"franchise"` occurrence — the title loop, whose `continue`
    skips forgiven franchise keywords and whose `break` stops at the first
    other match. -/
def titleHit (cfg : ListingFilter) (listing : BusinessListing) : Option String :=
  if truthyList cfg.excluded_title_keywords && !listing.title.isEmpty then
    (cfg.excluded_title_keywords.getD []).find?
      (fun excluded =>
        strContains (strLower listing.title) (strLower excluded) &&
        !(strLower excluded == "franchise" && franchiseAllowedHit cfg listing))
  else none

/-- Title-exclusion failure message. -/
def titleMsg (excluded : String) : String :=
  s!"Title contains excluded keyword \x27{excluded}\x27"

/-- Days listed: `(datetime.utcnow() - posted).days` (floor division). -/
def daysListed (now posted : Int) : Int := Int.fdiv (now - posted) 86400

/-- Freshness-check condition: `self.max_days_listed and listing.posted_date`
    and `days_listed > self.max_days_listed`.  The `except` branch of the
    source is dead: `posted_date` is always a `datetime` here. -/
def freshnessHit (cfg : ListingFilter) (listing : BusinessListing) (now : Int) : Bool :=
  truthyInt cfg.max_days_listed && listing.posted_date.isSome &&
    decide (daysListed now (listing.posted_date.getD 0) > cfg.max_days_listed.getD 0)

/-- Freshness failure message. -/
def freshnessMsg (cfg : ListingFilter) (listing : BusinessListing) (now : Int) : String :=
  let d := daysListed now (listing.posted_date.getD 0)
  let m := cfg.max_days_listed.getD 0
  s!"Listed {d} days ago (max {m})"

/-- Reasons contributed by the price check alone. -/
def priceReasons (cfg : ListingFilter) (listing : BusinessListing) : List String :=
  if priceHit cfg listing then [priceMsg cfg listing] else []

/-- Reasons contributed by the industry-exclusion check alone. -/
def industryReasons (cfg : ListingFilter) (listing : BusinessListing) : List String :=
  match industryHit cfg listing with
  | some excluded => [industryMsg listing excluded]
  | none => []

/-- Reasons contributed by the title-exclusion check alone. -/
def titleReasons (cfg : ListingFilter) (listing : BusinessListing) : List String :=
  match titleHit cfg listing with
  | some excluded => [titleMsg excluded]
  | none => []

/-- Reasons contributed by the freshness check alone. -/
def freshnessReasons (cfg : ListingFilter) (listing : BusinessListing) (now : Int) :
    List String :=
  if freshnessHit cfg listing now then [freshnessMsg cfg listing now] else []

/-- `ListingFilter.evaluate`, translated block by block: `passes` starts
    `true` and `reasons` empty; each of the four checks may set `passes` to
    `false` and append its reason, and no check short-circuits the rest.
    The call `datetime.utcnow()` of the freshness block is the explicit
    argument `now`. -/
def ListingFilter.evaluate (cfg : ListingFilter) (listing : BusinessListing)
    (now : Int) : Bool × List String :=
  let reasons : List String := []
  let passes := true
  -- Price check
  let passes := if priceHit cfg listing then false else passes
  let reasons := if priceHit cfg listing then reasons ++ [priceMsg cfg listing] else reasons
  -- Industry exclusions
  let passes := if (industryHit cfg listing).isSome then false else passes
  let reasons :=
    match industryHit cfg listing with
    | some excluded => reasons ++ [industryMsg listing excluded]
    | none => reasons
  -- Title exclusions
  let passes := if (titleHit cfg listing).isSome then false else passes
  let reasons :=
    match titleHit cfg listing with
    | some excluded => reasons ++ [titleMsg excluded]
    | none => reasons
  -- Freshness filter
  let passes := if freshnessHit cfg listing now then false else passes
  let reasons :=
    if freshnessHit cfg listing now then reasons ++ [freshnessMsg cfg listing now]
    else reasons
  (passes, reasons)

/-! ## Pre-filter pass (`main.py`, `filter_command` / `PrefilterService`) -/

/-- Observable outcome of processing one stored listing in the filter pass:
    the updated table, whether `evaluate` was invoked, and the reasons
    computed (empty when none were). -/
structure FilterStepResult where
  db : List ListingORM
  evaluateInvoked : Bool
  passes : Option Bool
  reasons : List String
deriving DecidableEq, Repr

/-- One iteration of the `filter_command` loop (`main.py`): a listing whose
    title contains `"sold"` is forced to `PREFILTER_FAIL` and skipped;
    otherwise `PrefilterService.process_listing` saves the listing, runs
    `evaluate` and stores the resulting status.  (`reset_and_filter` in
    `daily_run.py` has the identical sold short-circuit.) -/
def filterStep (cfg : ListingFilter) (db : List ListingORM)
    (listing : BusinessListing) (now : Int) : FilterStepResult :=
  if !listing.title.isEmpty && strContains (strLower listing.title) "sold" then
    { db := update_status db listing.id ListingStatus.PREFILTER_FAIL none
      evaluateInvoked := false
      passes := none
      reasons := [] }
  else
    let saved := save_with_dedup_check db listing now
    let res := cfg.evaluate listing now
    let new_status :=
      if res.1 then ListingStatus.PREFILTER_PASS else ListingStatus.PREFILTER_FAIL
    { db := update_status saved.db listing.id new_status none
      evaluateInvoked := true
      passes := some res.1
      reasons := res.2 }

/-! ## Fetch orchestrator (`business_searcher/fetchers/seek.py`) -/

/-- Outcome of one attempted page load of a detail page: either the
    navigation raised (timeout / network error), or the page loaded and the
    extractors produced the given title, description, posted dates and
    structured data. -/
inductive PageLoad where
  | err : PageLoad
  | page (title : Option String) (description : Option String)
      (posted_relative : Option String) (posted_calculated : Option Int)
      (structured : List (String × String)) : PageLoad

/-- The 5-tuple `_fetch_detail_page` returns. `posted_calculated` is the ISO
    date string, modelled as the timestamp pydantic parses it to. -/
structure DetailTuple where
  title : Option String
  description : Option String
  posted_relative : Option String
  posted_calculated : Option Int
  structured : List (String × String)
deriving DecidableEq, Repr

/-- `SeekBusinessFetcher.SOLD_SENTINEL = ("__SOLD__", None, None, None, {})`. -/
def SOLD_SENTINEL : DetailTuple :=
  { title := some "__SOLD__"
    description := none
    posted_relative := none
    posted_calculated := none
    structured := [] }

/-- `SeekBusinessFetcher._is_blocked_page`. -/
def _is_blocked_page (title : Option String) : Bool :=
  match title with
  | none => false
  | some t =>
    if t.isEmpty then false
    else
      strContains (strLower t) "sign in" || strContains (strLower t) "log in" ||
        t == "Verified Businesses"

/-- The sold test on a detail-page title:
    `if title and "sold" in title.lower()`. -/
def titleSold (title : Option String) : Bool :=
  match title with
  | none => false
  | some t => !t.isEmpty && strContains (strLower t) "sold"

/-- The result of `_parse_listing_basic` for one search-result fragment. -/
structure BasicInfo where
  id : String
  title : String
  price : Option Int
  location : Option String
  industry : Option String
  url : String
  broker_name : Option String
  listing_type : Option String
deriving DecidableEq, Repr

/-- One search-result fragment: its parsed summary (`none` when
    `_parse_listing_basic` returns `None`) together with the oracle giving
    the outcome of each detail-page load attempt for this item. -/
structure Elem where
  basic : Option BasicInfo
  detailOracle : Nat → PageLoad

/-- The environment of a fetch run: per page and per attempt, the outcome
    of loading that search page (`none` = the navigation raised; `some elems`
    = loaded, yielding the given fragments), and the URL-slug title fallback
    function `_extract_title_from_url`, abstracted since no claim depends on
    its output. -/
structure FetchEnv where
  listOracle : Nat → Nat → Option (List Elem)
  urlTitle : String → Option String

/-- Arguments of `SeekBusinessFetcher.fetch` that the claims exercise. -/
structure FetchCfg where
  count : Nat
  fetch_details : Bool
  known_ids : List String
deriving DecidableEq, Repr

/-- The all-`None` tuple `_fetch_detail_page` returns when every attempt
    failed. -/
def emptyDetail : DetailTuple :=
  { title := none, description := none, posted_relative := none,
    posted_calculated := none, structured := [] }

/-- Body of one `_fetch_detail_page` attempt: on an exception, give up with
    the all-`None` tuple when this was the last attempt, otherwise back off
    and retry (`onRetry`); on a loaded page, return the sold sentinel if the
    title says sold (never retried); on a blocked page, retry, falling back
    to the URL-derived title on the final attempt; otherwise return the
    extracted data. -/
def detailStep (env : FetchEnv) (url : String) (p : PageLoad) (isLast : Bool)
    (onRetry : DetailTuple) : DetailTuple :=
  match p with
  | PageLoad.err => if isLast then emptyDetail else onRetry
  | PageLoad.page title description posted_relative posted_calculated structured =>
    if titleSold title then SOLD_SENTINEL
    else if _is_blocked_page title then
      if isLast then
        { title := env.urlTitle url, description := description,
          posted_relative := posted_relative,
          posted_calculated := posted_calculated, structured := structured }
      else onRetry
    else
      { title := title, description := description,
        posted_relative := posted_relative,
        posted_calculated := posted_calculated, structured := structured }

/-- The `_fetch_detail_page` retry loop, indexed by the current attempt
    number and the number of attempts still permitted (attempts are numbered
    from 1; `attempt < max_retries` in the source is «further attempts
    remain» here). -/
def fetchDetailAux (env : FetchEnv) (oracle : Nat → PageLoad) (url : String) :
    Nat → Nat → DetailTuple
  | _, 0 => emptyDetail
  | attempt, 1 => detailStep env url (oracle attempt) true emptyDetail
  | attempt, r + 2 =>
    detailStep env url (oracle attempt) false
      (fetchDetailAux env oracle url (attempt + 1) (r + 1))

/-- `SeekBusinessFetcher._fetch_detail_page` (`max_retries = 3`). -/
def _fetch_detail_page (env : FetchEnv) (oracle : Nat → PageLoad) (url : String) :
    DetailTuple :=
  fetchDetailAux env oracle url 1 3

/-- The `_fetch_list_page` retry loop, indexed like `fetchDetailAux`: the
    fragments of the first successful attempt (`Option.getD`: a successful
    load returns its fragments, an exception falls through), `[]` once the
    attempts are exhausted — the source catches every exception and never
    re-raises. -/
def fetchListAux (oracle : Nat → Option (List Elem)) : Nat → Nat → List Elem
  | _, 0 => []
  | attempt, 1 => (oracle attempt).getD []
  | attempt, r + 2 =>
    (oracle attempt).getD (fetchListAux oracle (attempt + 1) (r + 1))

/-- `SeekBusinessFetcher._fetch_list_page` (`max_retries = 3`). -/
def _fetch_list_page (oracle : Nat → Option (List Elem)) : List Elem :=
  fetchListAux oracle 1 3

/-- Counter-relevant events of a fetch run, in order: a true detail failure,
    a successfully detailed (or detail-skipping but yielded) item, and a
    forced context refresh. -/
inductive FEvent where
  | detailFail : FEvent
  | detailOk : FEvent
  | refresh : FEvent
deriving DecidableEq, Repr

/-- Observable state of a fetch run: progress counters, the
    consecutive-detail-failure counter, the number of context refreshes, the
    listings yielded so far, and the event trace. -/
structure FetchState where
  fetched : Nat
  skipped : Nat
  consecutive_failures : Nat
  refreshes : Nat
  out : List BusinessListing
  events : List FEvent
deriving DecidableEq, Repr

/-- Whether processing this fragment produces a true detail failure
    (`detail_failed` in the source): the fragment parses, is not sold or
    already known, a detail fetch is attempted, and it comes back with
    neither a title nor a description (the sold sentinel is not a failure). -/
def elemDetailFailed (cfg : FetchCfg) (env : FetchEnv) (e : Elem) : Bool :=
  match e.basic with
  | none => false
  | some b =>
    if strContains (strLower b.title) "sold" then false
    else if cfg.known_ids.contains b.id then false
    else if cfg.fetch_details && !b.url.isEmpty then
      let result := _fetch_detail_page env e.detailOracle b.url
      if result.title == some "__SOLD__" then false
      else result.title == none && result.description == none
    else false

/-- Body of the `for element in listing_elements` loop for one fragment:
    skip unparseable, sold and already-known items; otherwise fetch the
    detail page when requested, skip sold-sentinel results, track the
    consecutive-failure counter (refreshing the context and resetting it at
    5), and yield the assembled `BusinessListing`. -/
def processElem (cfg : FetchCfg) (env : FetchEnv) (st : FetchState) (e : Elem) :
    FetchState :=
  match e.basic with
  | none => st
  | some b =>
    if strContains (strLower b.title) "sold" then
      { st with skipped := st.skipped + 1 }
    else if cfg.known_ids.contains b.id then
      { st with skipped := st.skipped + 1 }
    else if cfg.fetch_details && !b.url.isEmpty then
      let result := _fetch_detail_page env e.detailOracle b.url
      if result.title == some "__SOLD__" then
        { st with skipped := st.skipped + 1 }
      else
        let detail_failed := result.title == none && result.description == none
        let title1 :=
          match result.title with
          | some t => if !t.isEmpty then t else b.title
          | none => b.title
        let stc :=
          if detail_failed then
            if st.consecutive_failures + 1 ≥ 5 then
              { st with consecutive_failures := 0
                        refreshes := st.refreshes + 1
                        events := st.events ++ [FEvent.detailFail, FEvent.refresh] }
            else
              { st with consecutive_failures := st.consecutive_failures + 1
                        events := st.events ++ [FEvent.detailFail] }
          else
            { st with consecutive_failures := 0
                      events := st.events ++ [FEvent.detailOk] }
        let rd : RawData :=
          { broker_name := b.broker_name
            listing_type := b.listing_type
            posted_date_relative := result.posted_relative
            structured_data := result.structured
            detail_fetched := !detail_failed }
        let listing : BusinessListing :=
          { id := b.id
            source := "seekbusiness"
            title := title1
            description := result.description
            price := b.price
            revenue := none
            ebitda := none
            location := b.location
            industry := b.industry
            url := some b.url
            posted_date := result.posted_calculated
            raw_data := some rd }
        { stc with fetched := stc.fetched + 1, out := stc.out ++ [listing] }
    else
      let rd : RawData :=
        { broker_name := b.broker_name
          listing_type := b.listing_type
          posted_date_relative := none
          structured_data := []
          detail_fetched := true }
      let listing : BusinessListing :=
        { id := b.id
          source := "seekbusiness"
          title := b.title
          description := none
          price := b.price
          revenue := none
          ebitda := none
          location := b.location
          industry := b.industry
          url := some b.url
          posted_date := none
          raw_data := some rd }
      { st with consecutive_failures := 0
                events := st.events ++ [FEvent.detailOk]
                fetched := st.fetched + 1
                out := st.out ++ [listing] }

/-- The `for element in listing_elements` loop: each iteration first checks
    `if fetched >= count: break`. -/
def processElems (cfg : FetchCfg) (env : FetchEnv) (st : FetchState) :
    List Elem → FetchState
  | [] => st
  | e :: rest =>
    if st.fetched < cfg.count then processElems cfg env (processElem cfg env st e) rest
    else st

/-- The `while fetched < count` pagination loop, with explicit fuel (the
    source loop is unbounded; every claim concerns runs that terminate).
    Note `consecutive_failures = 0` is re-initialised for every page, inside
    the loop, exactly as in the source (seek.py line 111). -/
def fetchPages (cfg : FetchCfg) (env : FetchEnv) : Nat → Nat → FetchState → FetchState
  | 0, _, st => st
  | fuel + 1, page_num, st =>
    if st.fetched < cfg.count then
      let listing_elements := _fetch_list_page (env.listOracle page_num)
      if listing_elements.isEmpty then st
      else
        let st1 := { st with consecutive_failures := 0 }
        let st2 := processElems cfg env st1 listing_elements
        fetchPages cfg env fuel (page_num + 1) st2
    else st

/-- The state a run starts from. -/
def initFetchState : FetchState :=
  { fetched := 0, skipped := 0, consecutive_failures := 0, refreshes := 0,
    out := [], events := [] }

/-- `SeekBusinessFetcher.fetch`, as seen by its caller.  Every exception
    inside the loop body is caught (`_fetch_list_page` returns `[]` after
    retries, the per-item `try` swallows parse errors, `_fetch_detail_page`
    returns the all-`None` tuple), so within this model the generator never
    raises: the `Except.error` constructor is unreachable by construction,
    which the theorems below make explicit. -/
def SeekBusinessFetcher.fetch (cfg : FetchCfg) (env : FetchEnv) (fuel : Nat) :
    Except String FetchState :=
  Except.ok (fetchPages cfg env fuel 1 initFetchState)

/-! ## Repository lemmas -/

theorem get_by_id_mem {db : List ListingORM} {lid : String} {r : ListingORM}
    (h : get_by_id db lid = some r) : r ∈ db :=
  List.mem_of_find?_eq_some h

theorem get_by_id_id {db : List ListingORM} {lid : String} {r : ListingORM}
    (h : get_by_id db lid = some r) : r.id = lid := by
  have := List.find?_some h
  simpa using this

theorem countId_eq_zero {db : List ListingORM} {lid : String}
    (h : get_by_id db lid = none) : countId db lid = 0 := by
  unfold countId
  rw [List.length_eq_zero, List.filter_eq_nil_iff]
  intro a ha
  simpa using List.find?_eq_none.mp h a ha

theorem countId_pos {db : List ListingORM} {lid : String} {r : ListingORM}
    (h : get_by_id db lid = some r) : 1 ≤ countId db lid := by
  have hp : (r.id == lid) = true := by simp [get_by_id_id h]
  unfold countId
  exact List.length_pos_of_mem (List.mem_filter.mpr ⟨get_by_id_mem h, hp⟩)

theorem countId_singleton {r : ListingORM} {lid : String} (h : r.id = lid) :
    countId [r] lid = 1 := by
  simp [countId, List.filter_cons, h]

theorem countId_append (db1 db2 : List ListingORM) (lid : String) :
    countId (db1 ++ db2) lid = countId db1 lid + countId db2 lid := by
  simp [countId, List.filter_append]

theorem countId_replaceById {newRow : ListingORM} {lid : String}
    (h : newRow.id = lid) (db : List ListingORM) :
    countId (replaceById db lid newRow) lid = countId db lid := by
  induction db with
  | nil => rfl
  | cons r rest ih =>
    by_cases hr : (r.id == lid) = true
    · simp [replaceById, hr, countId, List.filter_cons, h]
    · simp only [replaceById, hr, if_false, Bool.false_eq_true]
      simp only [countId, List.filter_cons, hr] at ih ⊢
      simpa using ih

theorem length_replaceById (db : List ListingORM) (lid : String) (newRow : ListingORM) :
    (replaceById db lid newRow).length = db.length := by
  induction db with
  | nil => rfl
  | cons r rest ih =>
    by_cases hr : (r.id == lid) = true
    · simp [replaceById, hr]
    · simp [replaceById, hr, ih]

theorem get_by_id_replaceById {db : List ListingORM} {lid : String}
    {r newRow : ListingORM} (h : get_by_id db lid = some r) (hn : newRow.id = lid) :
    get_by_id (replaceById db lid newRow) lid = some newRow := by
  induction db with
  | nil => simp [get_by_id] at h
  | cons x rest ih =>
    by_cases hx : (x.id == lid) = true
    · simp [replaceById, hx, get_by_id, List.find?_cons_of_pos, hn]
    · have h' : get_by_id rest lid = some r := by
        simpa [get_by_id, List.find?_cons_of_neg, hx] using h
      simp only [replaceById, hx, if_false, Bool.false_eq_true]
      simpa [get_by_id, List.find?_cons_of_neg, hx] using ih h'

theorem existsListing_of_mem {db : List ListingORM} {lid src : String}
    {r : ListingORM} (hm : r ∈ db) (hid : r.id = lid) (hs : r.source = src) :
    existsListing db lid src = true := by
  unfold existsListing
  rw [List.any_eq_true]
  exact ⟨r, hm, by simp [hid, hs]⟩

theorem existsListing_eq_false {db : List ListingORM} {lid src : String}
    (h : ∀ r ∈ db, r.id = lid → r.source ≠ src) : existsListing db lid src = false := by
  unfold existsListing
  rw [List.any_eq_false]
  intro r hr hc
  simp only [Bool.and_eq_true, beq_iff_eq] at hc
  exact h r hr hc.1 hc.2

theorem get_by_id_append_none {db : List ListingORM} {lid : String}
    (h : get_by_id db lid = none) (orm : ListingORM) (ho : orm.id = lid) :
    get_by_id (db ++ [orm]) lid = some orm := by
  induction db with
  | nil => simp [get_by_id, List.find?_cons_of_pos, ho]
  | cons x rest ih =>
    by_cases hx : (x.id == lid) = true
    · simp [get_by_id, List.find?_cons_of_pos, hx] at h
    · have h' : get_by_id rest lid = none := by
        simpa [get_by_id, List.find?_cons_of_neg, hx] using h
      simpa [get_by_id, List.find?_cons_of_neg, hx] using ih h'

theorem _create_fst (db : List ListingORM) (l : BusinessListing) (now : Int) :
    (_create db l now).1 = db ++ [(_create db l now).2] := rfl

theorem _create_id (db : List ListingORM) (l : BusinessListing) (now : Int) :
    ((_create db l now).2).id = l.id := rfl

theorem _create_source (db : List ListingORM) (l : BusinessListing) (now : Int) :
    ((_create db l now).2).source = l.source := rfl

theorem _update_fst (db : List ListingORM) (ex : ListingORM) (l : BusinessListing)
    (now : Int) : (_update db ex l now).1 = replaceById db ex.id (_update db ex l now).2 :=
  rfl

theorem _update_id (db : List ListingORM) (ex : ListingORM) (l : BusinessListing)
    (now : Int) : ((_update db ex l now).2).id = ex.id := rfl

theorem _update_source (db : List ListingORM) (ex : ListingORM) (l : BusinessListing)
    (now : Int) : ((_update db ex l now).2).source = ex.source := rfl

theorem save_orm_id (db : List ListingORM) (l : BusinessListing) (now : Int) :
    ((save db l now).2).id = l.id := by
  unfold save
  cases h : get_by_id db l.id with
  | none => rfl
  | some ex =>
    have hid : ex.id = l.id := get_by_id_id h
    exact hid

theorem get_by_id_save (db : List ListingORM) (l : BusinessListing) (now : Int) :
    get_by_id ((save db l now).1) l.id = some ((save db l now).2) := by
  unfold save
  cases h : get_by_id db l.id with
  | none =>
    show get_by_id ((_create db l now).1) l.id = some ((_create db l now).2)
    rw [_create_fst]
    exact get_by_id_append_none h _ (_create_id db l now)
  | some ex =>
    have hid : ex.id = l.id := get_by_id_id h
    show get_by_id ((_update db ex l now).1) l.id = some ((_update db ex l now).2)
    rw [_update_fst, hid]
    exact get_by_id_replaceById h (by rw [_update_id, hid])

theorem save_orm_source (db : List ListingORM) (l : BusinessListing) (now : Int)
    (hS : ∀ r ∈ db, r.id = l.id → r.source = l.source) :
    ((save db l now).2).source = l.source := by
  unfold save
  cases h : get_by_id db l.id with
  | none => rfl
  | some ex => exact hS ex (get_by_id_mem h) (get_by_id_id h)

theorem countId_save (db : List ListingORM) (l : BusinessListing) (now : Int)
    (h : countId db l.id ≤ 1) : countId ((save db l now).1) l.id = 1 := by
  unfold save
  cases hf : get_by_id db l.id with
  | none =>
    have h0 := countId_eq_zero hf
    show countId ((_create db l now).1) l.id = 1
    rw [_create_fst, countId_append, h0, countId_singleton (_create_id db l now)]
  | some ex =>
    have h1 : countId db l.id = 1 := le_antisymm h (countId_pos hf)
    have hid : ex.id = l.id := get_by_id_id hf
    show countId ((_update db ex l now).1) l.id = 1
    rw [_update_fst, hid, countId_replaceById (by rw [_update_id, hid]), h1]

theorem swdc_db (db : List ListingORM) (l : BusinessListing) (now : Int) :
    (save_with_dedup_check db l now).db = (save db l now).1 := rfl

theorem swdc_orm (db : List ListingORM) (l : BusinessListing) (now : Int) :
    (save_with_dedup_check db l now).orm = (save db l now).2 := rfl

theorem swdc_is_new (db : List ListingORM) (l : BusinessListing) (now : Int) :
    (save_with_dedup_check db l now).is_new = !existsListing db l.id l.source := rfl

theorem save_found_eq {db : List ListingORM} {l : BusinessListing} {r : ListingORM}
    (now : Int) (h : get_by_id db l.id = some r) : save db l now = _update db r l now := by
  unfold save
  rw [h]

theorem save_orm_title (db : List ListingORM) (l : BusinessListing) (now : Int) :
    ((save db l now).2).title = l.title := by
  unfold save
  cases h : get_by_id db l.id <;> rfl

theorem save_orm_price (db : List ListingORM) (l : BusinessListing) (now : Int) :
    ((save db l now).2).price = l.price := by
  unfold save
  cases h : get_by_id db l.id <;> rfl

/-- **C1.** Upsert is deduplicating and idempotent.  For any table satisfying
    the primary-key invariant for `l.id` (at most one row with that id) in
    which any row with that id comes from the same source (the program only
    ever stores source-prefixed ids, so two sources never share an id — the
    cross-source exception is treated separately), saving `l` twice leaves
    exactly one stored row with id `l.id` (already after the first call), and
    the second call reports `is_new = false`. -/
theorem c1_upsert_dedup_idempotent (db : List ListingORM) (l : BusinessListing)
    (now1 now2 : Int) (hCount : countId db l.id ≤ 1)
    (hSrc : ∀ r ∈ db, r.id = l.id → r.source = l.source) :
    countId ((save_with_dedup_check db l now1).db) l.id = 1 ∧
    countId ((save_with_dedup_check ((save_with_dedup_check db l now1).db) l now2).db)
      l.id = 1 ∧
    (save_with_dedup_check ((save_with_dedup_check db l now1).db) l now2).is_new =
      false := by
  have first : countId ((save db l now1).1) l.id = 1 := countId_save db l now1 hCount
  refine ⟨by rw [swdc_db]; exact first, ?_, ?_⟩
  · rw [swdc_db, swdc_db]
    exact countId_save _ l now2 (by rw [first])
  · rw [swdc_db, swdc_is_new]
    have hget := get_by_id_save db l now1
    have hex : existsListing ((save db l now1).1) l.id l.source = true :=
      existsListing_of_mem (get_by_id_mem hget) (save_orm_id db l now1)
        (save_orm_source db l now1 hSrc)
    rw [hex]
    rfl

/-- Concrete listing used by the C1 witness. -/
def wC1 : BusinessListing :=
  { id := "seek_1", source := "seekbusiness", title := "Widget Co" }

/-- **C1 witness**: the theorem applied to the empty table and a concrete
    listing. -/
theorem c1_upsert_dedup_idempotent_witness :
    countId ((save_with_dedup_check [] wC1 0).db) "seek_1" = 1 ∧
    countId ((save_with_dedup_check ((save_with_dedup_check [] wC1 0).db) wC1 1).db)
      "seek_1" = 1 ∧
    (save_with_dedup_check ((save_with_dedup_check [] wC1 0).db) wC1 1).is_new =
      false :=
  c1_upsert_dedup_idempotent [] wC1 0 1 (by decide) (by simp)

/-- **C9.** The existence check and the save operation use different keys:
    `exists` matches on `(id, source)` while `save` looks up by `id` alone.
    Consequently, when every stored row with id `l.id` comes from a
    different source (and one such row `r` exists), `save_with_dedup_check`
    reports `is_new = true` yet overwrites that row in place — the table
    keeps its length, the row now carries the fields of `l` (its `source`
    column alone keeps the old value, since `_update` does not assign it),
    and no second row is created. -/
theorem c9_cross_source_overwrite (db : List ListingORM) (l : BusinessListing)
    (now : Int) (r : ListingORM) (hget : get_by_id db l.id = some r)
    (hdiff : ∀ q ∈ db, q.id = l.id → q.source ≠ l.source) :
    (save_with_dedup_check db l now).is_new = true ∧
    ((save_with_dedup_check db l now).db).length = db.length ∧
    get_by_id ((save_with_dedup_check db l now).db) l.id =
      some ((save_with_dedup_check db l now).orm) ∧
    ((save_with_dedup_check db l now).orm).title = l.title ∧
    ((save_with_dedup_check db l now).orm).price = l.price ∧
    ((save_with_dedup_check db l now).orm).source = r.source := by
  refine ⟨?_, ?_, ?_, ?_, ?_, ?_⟩
  · rw [swdc_is_new, existsListing_eq_false hdiff]
    rfl
  · rw [swdc_db, save_found_eq now hget, _update_fst]
    exact length_replaceById db r.id _
  · rw [swdc_db, swdc_orm]
    exact get_by_id_save db l now
  · rw [swdc_orm]
    exact save_orm_title db l now
  · rw [swdc_orm]
    exact save_orm_price db l now
  · rw [swdc_orm, save_found_eq now hget]
    exact _update_source db r l now

/-- Row stored by a different source but sharing the id of `wC9`. -/
def rowOther : ListingORM :=
  { id := "seek_7", source := "mock", title := "Other Source Biz",
    description := none, price := some 5, revenue := none, ebitda := none,
    location := none, industry := none, url := none, posted_date := none,
    ebitda_margin := none, asking_multiple := none, raw_data := none,
    status := ListingStatus.NEW, first_seen_at := 0, last_updated_at := 0,
    processed_at := none }

/-- Listing whose id collides with `rowOther` but whose source differs. -/
def wC9 : BusinessListing :=
  { id := "seek_7", source := "seekbusiness", title := "Seek Biz", price := some 9 }

/-- **C9 witness**: the theorem applied to a one-row table stored by the
    other source. -/
theorem c9_cross_source_overwrite_witness :
    (save_with_dedup_check [rowOther] wC9 3).is_new = true ∧
    ((save_with_dedup_check [rowOther] wC9 3).db).length = [rowOther].length ∧
    get_by_id ((save_with_dedup_check [rowOther] wC9 3).db) "seek_7" =
      some ((save_with_dedup_check [rowOther] wC9 3).orm) ∧
    ((save_with_dedup_check [rowOther] wC9 3).orm).title = "Seek Biz" ∧
    ((save_with_dedup_check [rowOther] wC9 3).orm).price = some 9 ∧
    ((save_with_dedup_check [rowOther] wC9 3).orm).source = "mock" :=
  c9_cross_source_overwrite [rowOther] wC9 3 rowOther (by decide) (by decide)

/-- **C10.** `update_status` with an id that matches no stored row is a
    silent no-op: the function is total (no code path raises) and returns
    the table unchanged — every row, status and `processed_at` included. -/
theorem c10_update_status_noop (db : List ListingORM) (lid status : String)
    (processed_at : Option Int) (h : ∀ r ∈ db, r.id ≠ lid) :
    update_status db lid status processed_at = db := by
  have hn : get_by_id db lid = none := by
    unfold get_by_id
    rw [List.find?_eq_none]
    intro x hx
    simp [h x hx]
  unfold update_status
  rw [hn]

/-- **C10 witness**: a one-row table is untouched by an update for a
    missing id. -/
theorem c10_update_status_noop_witness :
    update_status [rowOther] "seek_404" ListingStatus.PREFILTER_PASS (some 5) =
      [rowOther] :=
  c10_update_status_noop [rowOther] "seek_404" ListingStatus.PREFILTER_PASS (some 5)
    (by decide)

/-- Listing created with full financials (C2 examples). -/
def c2A : BusinessListing :=
  { id := "seek_9", source := "seekbusiness", title := "A", price := some 200,
    revenue := some 100, ebitda := some 50 }

/-- Re-fetched payload for the same id with the financial fields absent. -/
def c2B : BusinessListing :=
  { id := "seek_9", source := "seekbusiness", title := "B" }

/-- Listing with `ebitda = 0` (set but falsy) and positive revenue. -/
def c2Zero : BusinessListing :=
  { id := "seek_8", source := "seekbusiness", title := "Z",
    revenue := some 100, ebitda := some 0 }

/-- **C2 counterexample.**  The claim says the stored `ebitda_margin` equals
    `ebitda/revenue` whenever `revenue > 0` and `ebitda` is set, and that
    both derived fields are absent in all other cases.  Two concrete
    persisted listings refute it: (i) a created listing with
    `ebitda = some 0` and `revenue = some 100` stores `ebitda_margin = none`
    (Python truthiness skips the computation), not `0/100`; (ii) after a row
    is created from `c2A` (margin `1/2`, multiple `4`) and then updated from
    the payload `c2B` whose `revenue`/`ebitda`/`price` are all absent, the
    stored row retains the stale `ebitda_margin` and `asking_multiple`
    instead of them being absent. -/
theorem c2_derived_metrics_counterexample :
    (c2Zero.revenue = some 100 ∧ c2Zero.ebitda = some 0 ∧
      ((_create [] c2Zero 0).2).ebitda_margin = none) ∧
    (c2B.revenue = none ∧ c2B.ebitda = none ∧ c2B.price = none ∧
      ((save ((save [] c2A 0).1) c2B 1).2).ebitda_margin =
        some (((50 : Int) : ℚ) / ((100 : Int) : ℚ)) ∧
      ((save ((save [] c2A 0).1) c2B 1).2).asking_multiple =
        some (((200 : Int) : ℚ) / ((50 : Int) : ℚ)) ∧
      get_by_id ((save ((save [] c2A 0).1) c2B 1).1) "seek_9" =
        some ((save ((save [] c2A 0).1) c2B 1).2)) := by
  exact ⟨⟨rfl, rfl, by decide⟩, ⟨rfl, rfl, rfl, rfl, rfl, get_by_id_save _ c2B 1⟩⟩

/-- **C2 as amended.**  For a created row, `ebitda_margin = ebitda/revenue`
    exactly when `ebitda` is set and nonzero and `revenue` is set and
    positive (Python truthiness treats `0` like unset), and is absent
    otherwise; `asking_multiple = price/ebitda` exactly when `price` is set
    and nonzero and `ebitda` is set and positive, absent otherwise.  For an
    updated row the same guards govern recomputation, but when a guard fails
    the previously stored value is retained rather than cleared. -/
theorem c2_derived_metrics_amended :
    (∀ (db : List ListingORM) (l : BusinessListing) (now : Int) (e r : Int),
      l.ebitda = some e → l.revenue = some r → e ≠ 0 → 0 < r →
      ((_create db l now).2).ebitda_margin = some ((e : ℚ) / (r : ℚ))) ∧
    (∀ (db : List ListingORM) (l : BusinessListing) (now : Int),
      truthyInt l.ebitda = false ∨ truthyInt l.revenue = false ∨
        ¬ 0 < l.revenue.getD 0 →
      ((_create db l now).2).ebitda_margin = none) ∧
    (∀ (db : List ListingORM) (l : BusinessListing) (now : Int) (p e : Int),
      l.price = some p → l.ebitda = some e → p ≠ 0 → 0 < e →
      ((_create db l now).2).asking_multiple = some ((p : ℚ) / (e : ℚ))) ∧
    (∀ (db : List ListingORM) (l : BusinessListing) (now : Int),
      truthyInt l.price = false ∨ truthyInt l.ebitda = false ∨
        ¬ 0 < l.ebitda.getD 0 →
      ((_create db l now).2).asking_multiple = none) ∧
    (∀ (db : List ListingORM) (ex : ListingORM) (l : BusinessListing) (now : Int)
      (e r : Int), l.ebitda = some e → l.revenue = some r → e ≠ 0 → 0 < r →
      ((_update db ex l now).2).ebitda_margin = some ((e : ℚ) / (r : ℚ))) ∧
    (∀ (db : List ListingORM) (ex : ListingORM) (l : BusinessListing) (now : Int),
      truthyInt l.ebitda = false ∨ truthyInt l.revenue = false ∨
        ¬ 0 < l.revenue.getD 0 →
      ((_update db ex l now).2).ebitda_margin = ex.ebitda_margin) ∧
    (∀ (db : List ListingORM) (ex : ListingORM) (l : BusinessListing) (now : Int)
      (p e : Int), l.price = some p → l.ebitda = some e → p ≠ 0 → 0 < e →
      ((_update db ex l now).2).asking_multiple = some ((p : ℚ) / (e : ℚ))) ∧
    (∀ (db : List ListingORM) (ex : ListingORM) (l : BusinessListing) (now : Int),
      truthyInt l.price = false ∨ truthyInt l.ebitda = false ∨
        ¬ 0 < l.ebitda.getD 0 →
      ((_update db ex l now).2).asking_multiple = ex.asking_multiple) := by
  refine ⟨?_, ?_, ?_, ?_, ?_, ?_, ?_, ?_⟩
  · intro db l now e r hE hR he hr
    simp [_create, truthyInt, hE, hR, he, hr, hr.ne']
  · intro db l now h
    rcases h with h | h | h <;> simp [_create, h]
  · intro db l now p e hP hE hp he
    simp [_create, truthyInt, hP, hE, hp, he, he.ne']
  · intro db l now h
    rcases h with h | h | h <;> simp [_create, h]
  · intro db ex l now e r hE hR he hr
    simp [_update, truthyInt, hE, hR, he, hr, hr.ne']
  · intro db ex l now h
    rcases h with h | h | h <;> simp [_update, h]
  · intro db ex l now p e hP hE hp he
    simp [_update, truthyInt, hP, hE, hp, he, he.ne']
  · intro db ex l now h
    rcases h with h | h | h <;> simp [_update, h]

/-- The row created from `c2A`, used by the C2 witness. -/
def row9 : ListingORM := (_create [] c2A 0).2

/-- **C2 witness**: the amended theorem applied to concrete inputs — a
    creation that computes `50/100`, and an update from a payload with no
    financials that retains the stored margin. -/
theorem c2_derived_metrics_witness :
    ((_create [] c2A 0).2).ebitda_margin =
      some (((50 : Int) : ℚ) / ((100 : Int) : ℚ)) ∧
    ((_update [] row9 c2B 1).2).ebitda_margin = row9.ebitda_margin :=
  ⟨c2_derived_metrics_amended.1 [] c2A 0 50 100 rfl rfl (by decide) (by decide),
   c2_derived_metrics_amended.2.2.2.2.2.1 [] row9 c2B 1 (Or.inl (by decide))⟩

/-- Listing used by the C3 counterexample: clean of every default keyword,
    but carrying a posted date. -/
def c3L : BusinessListing :=
  { id := "seek_3", source := "seekbusiness", title := "Consulting",
    posted_date := some 0 }

/-- **C3 counterexample.**  `evaluate` is not a pure function of
    `(listing, config)` alone: the freshness check reads the clock
    (`datetime.utcnow()`), so the same listing under the same default
    configuration passes at one instant and fails 61 days later. -/
theorem c3_evaluate_counterexample :
    ListingFilter.evaluate {} c3L 0 = (true, []) ∧
    ListingFilter.evaluate {} c3L 5270400 =
      (false, ["Listed 61 days ago (max 60)"]) ∧
    ListingFilter.evaluate {} c3L 0 ≠ ListingFilter.evaluate {} c3L 5270400 := by
  refine ⟨?_, ?_, ?_⟩ <;> decide

/-- **C3 as amended.**  `evaluate` is a pure function of
    `(listing, config, now)` — with the clock reading made an explicit input
    it is deterministic by construction — and its result always decomposes
    into the fixed check order price → industry exclusion → title exclusion
    → freshness, with `passes` true exactly when no check contributed a
    reason (no check short-circuits the rest). -/
theorem c3_evaluate_decomposition (cfg : ListingFilter) (listing : BusinessListing)
    (now : Int) :
    ListingFilter.evaluate cfg listing now =
      ((priceReasons cfg listing ++ industryReasons cfg listing ++
          titleReasons cfg listing ++ freshnessReasons cfg listing now).isEmpty,
        priceReasons cfg listing ++ industryReasons cfg listing ++
          titleReasons cfg listing ++ freshnessReasons cfg listing now) := by
  unfold ListingFilter.evaluate priceReasons industryReasons titleReasons
    freshnessReasons
  cases h1 : priceHit cfg listing <;>
    cases h2 : industryHit cfg listing <;>
      cases h3 : titleHit cfg listing <;>
        cases h4 : freshnessHit cfg listing now <;>
          simp [h1, h2, h3, h4]

theorem title_nonempty_of_sold {t : String}
    (h : strContains (strLower t) "sold" = true) : t.isEmpty = false := by
  cases ht : t.isEmpty
  · rfl
  · have he : t = "" := by simpa [String.isEmpty_iff] using ht
    subst he
    exact absurd h (by decide)

theorem update_status_found {db : List ListingORM} {lid : String} {r : ListingORM}
    (status : String) (h : get_by_id db lid = some r) :
    update_status db lid status none = replaceById db lid { r with status := status } := by
  unfold update_status
  rw [h]

/-- **C4.** Any listing whose title contains `"sold"` (case-insensitively) is
    handled by the pre-filter short-circuit, whatever its price, industry or
    other fields: the filter pass sets it straight to `PREFILTER_FAIL`
    (the stored row, when present, gets that status), `evaluate` is never
    invoked, and no failure reasons are computed. -/
theorem c4_sold_short_circuit (cfg : ListingFilter) (db : List ListingORM)
    (listing : BusinessListing) (now : Int)
    (h : strContains (strLower listing.title) "sold" = true) :
    filterStep cfg db listing now =
      { db := update_status db listing.id ListingStatus.PREFILTER_FAIL none
        evaluateInvoked := false
        passes := none
        reasons := [] } ∧
    (∀ r : ListingORM, get_by_id db listing.id = some r →
      get_by_id ((filterStep cfg db listing now).db) listing.id =
        some { r with status := ListingStatus.PREFILTER_FAIL }) := by
  have hne : listing.title.isEmpty = false := title_nonempty_of_sold h
  have hmain : filterStep cfg db listing now =
      { db := update_status db listing.id ListingStatus.PREFILTER_FAIL none
        evaluateInvoked := false
        passes := none
        reasons := [] } := by
    unfold filterStep
    simp [h, hne]
  refine ⟨hmain, ?_⟩
  intro r hr
  rw [hmain]
  show get_by_id (update_status db listing.id ListingStatus.PREFILTER_FAIL none)
    listing.id = _
  rw [update_status_found _ hr]
  have hid : r.id = listing.id := get_by_id_id hr
  exact get_by_id_replaceById hr hid

/-- Concrete sold listing (expensive and in an excluded industry, which the
    short-circuit never looks at). -/
def c4L : BusinessListing :=
  { id := "seek_4", source := "seekbusiness", title := "Cafe Business - SOLD",
    price := some 5000000, industry := some "Hospitality" }

/-- **C4 witness**: the theorem applied to the sold listing. -/
theorem c4_sold_short_circuit_witness :
    filterStep {} [] c4L 0 =
      { db := update_status [] "seek_4" ListingStatus.PREFILTER_FAIL none
        evaluateInvoked := false
        passes := none
        reasons := [] } :=
  (c4_sold_short_circuit {} [] c4L 0 (by decide)).1

theorem and_not_and_eq_true (a b c : Bool) :
    (a && !(b && c)) = true ↔ (a = true ∧ ¬(b = true ∧ c = true)) := by
  cases a <;> cases b <;> cases c <;> simp

/-- Listing titled with the keyword `"franchise"` in a franchise-allowed
    industry. -/
def frL : BusinessListing :=
  { id := "seek_5", source := "seekbusiness",
    title := "Premium Franchise Opportunity", industry := some "Legal Services" }

/-- The same title in an industry that is not franchise-allowed. -/
def frR : BusinessListing := { frL with id := "seek_6", industry := some "Retail" }

/-- **C5.** For every listing with a nonempty title, the title check fails
    (contributing a reason) exactly when some excluded-title keyword is
    contained case-insensitively in the title and is not a forgiven
    occurrence — forgiven meaning the keyword is literally `"franchise"`
    while the industry contains one of the configured franchise-allowed
    industries.  In particular, under the default configuration the title
    `"Premium Franchise Opportunity"` passes the title check with industry
    `"Legal Services"` and fails with industry `"Retail"`, with a reason
    citing `franchise`. -/
theorem c5_franchise_exception :
    (∀ (cfg : ListingFilter) (listing : BusinessListing), listing.title ≠ "" →
      (titleReasons cfg listing ≠ [] ↔
        ∃ k ∈ cfg.excluded_title_keywords.getD [],
          strContains (strLower listing.title) (strLower k) = true ∧
          ¬(strLower k = "franchise" ∧ franchiseAllowedHit cfg listing = true))) ∧
    titleReasons {} frL = [] ∧
    titleReasons {} frR = ["Title contains excluded keyword \x27franchise\x27"] := by
  refine ⟨?_, by decide, by decide⟩
  intro cfg listing hne
  have hE : listing.title.isEmpty = false := by
    cases h : listing.title.isEmpty
    · rfl
    · exact absurd (by simpa [String.isEmpty_iff] using h) hne
  unfold titleReasons titleHit
  rcases hkw : cfg.excluded_title_keywords with _ | kws
  · simp [truthyList]
  · cases kws with
    | nil => simp [truthyList]
    | cons k ks =>
      simp only [truthyList, Option.getD_some, hE, Bool.not_false, Bool.and_true,
        List.isEmpty_cons, if_true]
      cases hf : List.find?
          (fun excluded =>
            strContains (strLower listing.title) (strLower excluded) &&
            !(strLower excluded == "franchise" && franchiseAllowedHit cfg listing))
          (k :: ks) with
      | none =>
        have hall := List.find?_eq_none.mp hf
        simp only [hf, ne_eq, not_true, false_iff, not_exists]
        intro x hx
        have hnx := hall x hx.1
        rw [and_not_and_eq_true] at hnx
        simp only [beq_iff_eq] at hnx
        exact hnx ⟨hx.2.1, hx.2.2⟩
      | some kf =>
        have hp := List.find?_some hf
        rw [and_not_and_eq_true] at hp
        simp only [beq_iff_eq] at hp
        simp only [hf]
        constructor
        · intro _
          exact ⟨kf, List.mem_of_find?_eq_some hf, hp.1, hp.2⟩
        · intro _
          simp

/-- **C5 witness**: the theorem applied to the `"Retail"` listing — the
    keyword `"franchise"` is in the default list, occurs in the title, and
    is not forgiven, so the title check fails. -/
theorem c5_franchise_exception_witness : titleReasons {} frR ≠ [] :=
  (c5_franchise_exception.1 {} frR (by decide)).mpr
    ⟨"franchise", by decide, by decide, by decide⟩

theorem fetchList_all_fail (oracle : Nat → Option (List Elem))
    (h1 : oracle 1 = none) (h2 : oracle 2 = none) (h3 : oracle 3 = none) :
    _fetch_list_page oracle = [] := by
  simp [_fetch_list_page, fetchListAux, h1, h2, h3]

/-- **C6 counterexample.**  No `SourceUnreachable` error exists: with an
    environment in which every attempt to load the first search page fails,
    the run does not abort — `fetch` returns normally (`Except.ok`, the only
    constructor any code path produces) with zero listings yielded. -/
def cfg6 : FetchCfg := { count := 20, fetch_details := true, known_ids := [] }

/-- Environment whose every page-load attempt raises. -/
def env6 : FetchEnv := { listOracle := fun _ _ => none, urlTitle := fun _ => none }

/-- **C6 counterexample** (see `cfg6`/`env6`): the very first search page
    fails on all 3 attempts, yet the run returns normally with an empty
    result instead of raising. -/
theorem c6_source_unreachable_counterexample :
    env6.listOracle 1 1 = none ∧ env6.listOracle 1 2 = none ∧
    env6.listOracle 1 3 = none ∧
    SeekBusinessFetcher.fetch cfg6 env6 5 = Except.ok initFetchState ∧
    (fetchPages cfg6 env6 5 1 initFetchState).out = [] :=
  ⟨rfl, rfl, rfl, by rfl, by rfl⟩

/-- **C6 as amended.**  The fetcher defines no `SourceUnreachable` error and
    never raises on a page-load failure: `_fetch_list_page` swallows every
    exception and returns `[]` after 3 attempts, so a failing page — the
    very first included — merely ends pagination, leaving the state
    collected so far; for the first page the run returns normally with no
    listings yielded. -/
theorem c6_no_source_unreachable :
    (∀ (cfg : FetchCfg) (env : FetchEnv) (fuel page : Nat) (st : FetchState),
      env.listOracle page 1 = none → env.listOracle page 2 = none →
      env.listOracle page 3 = none → fetchPages cfg env fuel page st = st) ∧
    (∀ (cfg : FetchCfg) (env : FetchEnv) (fuel : Nat),
      env.listOracle 1 1 = none → env.listOracle 1 2 = none →
      env.listOracle 1 3 = none →
      SeekBusinessFetcher.fetch cfg env fuel = Except.ok initFetchState) := by
  have hpages : ∀ (cfg : FetchCfg) (env : FetchEnv) (fuel page : Nat) (st : FetchState),
      env.listOracle page 1 = none → env.listOracle page 2 = none →
      env.listOracle page 3 = none → fetchPages cfg env fuel page st = st := by
    intro cfg env fuel page st h1 h2 h3
    cases fuel with
    | zero => rfl
    | succ n =>
      have hl : _fetch_list_page (env.listOracle page) = [] :=
        fetchList_all_fail _ h1 h2 h3
      simp [fetchPages, hl]
  refine ⟨hpages, ?_⟩
  intro cfg env fuel h1 h2 h3
  unfold SeekBusinessFetcher.fetch
  rw [hpages cfg env fuel 1 initFetchState h1 h2 h3]

/-- **C6 witness**: the amended theorem applied to the all-failing
    environment, both at the first page and at a later page with a nonempty
    intermediate state. -/
theorem c6_no_source_unreachable_witness :
    fetchPages cfg6 env6 7 4 initFetchState = initFetchState ∧
    SeekBusinessFetcher.fetch cfg6 env6 7 = Except.ok initFetchState :=
  ⟨c6_no_source_unreachable.1 cfg6 env6 7 4 initFetchState rfl rfl rfl,
   c6_no_source_unreachable.2 cfg6 env6 7 rfl rfl rfl⟩

theorem detail_all_err (env : FetchEnv) (oracle : Nat → PageLoad) (url : String)
    (h1 : oracle 1 = PageLoad.err) (h2 : oracle 2 = PageLoad.err)
    (h3 : oracle 3 = PageLoad.err) :
    _fetch_detail_page env oracle url = emptyDetail := by
  simp [_fetch_detail_page, fetchDetailAux, detailStep, h1, h2, h3]

/-- **C7.** When every one of the 3 detail-fetch attempts fails with a
    timeout/network error, the orchestrator does not raise: it still yields
    a listing built from the summary data alone — description absent and
    `detail_fetched = false` in its raw-data envelope — increments the
    fetched counter, and the element loop continues with the next item. -/
theorem c7_detail_failure_partial_yield (cfg : FetchCfg) (env : FetchEnv)
    (st : FetchState) (e : Elem) (b : BasicInfo) (rest : List Elem)
    (hb : e.basic = some b)
    (hsold : strContains (strLower b.title) "sold" = false)
    (hknown : b.id ∉ cfg.known_ids)
    (hdet : cfg.fetch_details = true)
    (hurl : b.url.isEmpty = false)
    (h1 : e.detailOracle 1 = PageLoad.err) (h2 : e.detailOracle 2 = PageLoad.err)
    (h3 : e.detailOracle 3 = PageLoad.err)
    (hcount : st.fetched < cfg.count) :
    (processElem cfg env st e).out = st.out ++
      [{ id := b.id, source := "seekbusiness", title := b.title, description := none,
         price := b.price, revenue := none, ebitda := none, location := b.location,
         industry := b.industry, url := some b.url, posted_date := none,
         raw_data := some { broker_name := b.broker_name,
                            listing_type := b.listing_type,
                            posted_date_relative := none, structured_data := [],
                            detail_fetched := false } }] ∧
    (processElem cfg env st e).fetched = st.fetched + 1 ∧
    processElems cfg env st (e :: rest) =
      processElems cfg env (processElem cfg env st e) rest := by
  have hres : _fetch_detail_page env e.detailOracle b.url = emptyDetail :=
    detail_all_err env e.detailOracle b.url h1 h2 h3
  refine ⟨?_, ?_, ?_⟩
  · by_cases hc : st.consecutive_failures + 1 ≥ 5 <;>
      simp [processElem, hb, hsold, hknown, hdet, hurl, hres, hc, emptyDetail]
  · by_cases hc : st.consecutive_failures + 1 ≥ 5 <;>
      simp [processElem, hb, hsold, hknown, hdet, hurl, hres, hc, emptyDetail]
  · simp [processElems, hcount]

/-- Summary fragment used by the C7 and C8 witnesses: parses fine, is not
    sold or known, and every detail attempt times out. -/
def b7 : BasicInfo :=
  { id := "seek_100", title := "Biz", price := none, location := none,
    industry := none, url := "u", broker_name := none, listing_type := none }

/-- Element wrapping `b7` whose detail oracle always raises. -/
def e7 : Elem := { basic := some b7, detailOracle := fun _ => PageLoad.err }

/-- Fetch arguments used by the C7 witness. -/
def cfg7 : FetchCfg := { count := 10, fetch_details := true, known_ids := [] }

/-- Environment used by the C7 witness. -/
def env7 : FetchEnv := { listOracle := fun _ _ => some [], urlTitle := fun _ => none }

/-- **C7 witness**: the theorem applied to a concrete element whose three
    detail attempts all fail. -/
theorem c7_detail_failure_partial_yield_witness :
    (processElem cfg7 env7 initFetchState e7).out = initFetchState.out ++
      [{ id := "seek_100", source := "seekbusiness", title := "Biz",
         description := none, price := none, revenue := none, ebitda := none,
         location := none, industry := none, url := some "u", posted_date := none,
         raw_data := some { broker_name := none, listing_type := none,
                            posted_date_relative := none, structured_data := [],
                            detail_fetched := false } }] ∧
    (processElem cfg7 env7 initFetchState e7).fetched = initFetchState.fetched + 1 ∧
    processElems cfg7 env7 initFetchState [e7] =
      processElems cfg7 env7 (processElem cfg7 env7 initFetchState e7) [] :=
  c7_detail_failure_partial_yield cfg7 env7 initFetchState e7 b7 [] rfl rfl
    (by decide) rfl rfl rfl rfl rfl (by decide)

/-- Longest run of adjacent `detailFail` events (any other event — a
    successful detail, a context refresh — breaks the run). -/
def maxFailRunAux : List FEvent → Nat → Nat → Nat
  | [], cur, best => max cur best
  | FEvent.detailFail :: rest, cur, best =>
    maxFailRunAux rest (cur + 1) (max (cur + 1) best)
  | _ :: rest, _, best => maxFailRunAux rest 0 best

/-- Longest number of consecutive true detail failures in a run trace with
    no context refresh (and no successful detail) in between. -/
def maxFailRun (es : List FEvent) : Nat := maxFailRunAux es 0 0

/-- Fetch arguments for the C8 counterexample run. -/
def cfg8 : FetchCfg := { count := 100, fetch_details := true, known_ids := [] }

/-- Environment for the C8 counterexample: two search pages of four
    fragments each, every detail attempt failing. -/
def env8 : FetchEnv :=
  { listOracle := fun p _ => if p ≤ 2 then some [e7, e7, e7, e7] else some []
    urlTitle := fun _ => none }

/-- **C8 counterexample.**  `consecutive_failures` is re-initialised to 0 at
    the start of every page (seek.py line 111), so the claimed run-wide
    bound fails: a run whose two pages hold four truly-failing items each
    accumulates 8 consecutive true detail failures — the trace is eight
    adjacent `detailFail` events — with zero context refreshes. -/
theorem c8_consecutive_failures_counterexample :
    (fetchPages cfg8 env8 5 1 initFetchState).refreshes = 0 ∧
    (fetchPages cfg8 env8 5 1 initFetchState).events =
      [FEvent.detailFail, FEvent.detailFail, FEvent.detailFail, FEvent.detailFail,
       FEvent.detailFail, FEvent.detailFail, FEvent.detailFail, FEvent.detailFail] ∧
    maxFailRun (fetchPages cfg8 env8 5 1 initFetchState).events = 8 ∧
    ¬ maxFailRun (fetchPages cfg8 env8 5 1 initFetchState).events ≤ 5 := by
  refine ⟨by rfl, by rfl, by rfl, by decide⟩

/-- **C8 as amended.**  The consecutive-detail-failure counter is maintained
    per results page, not per run: it is re-initialised to 0 whenever a new
    page of fragments arrives.  Within a page, from any counter value ≤ 4:
    the counter stays ≤ 4 across every item; a context refresh happens at an
    item exactly when that item is a true detail failure arriving with the
    counter at 4 (the 5th consecutive failure — the context is then closed
    and reopened, with a 5–10 unit sleep, and the counter reset to 0); items
    that are not true failures never increment it (sold-sentinels and skips
    leave it unchanged, successfully detailed items reset it to 0); and a
    true failure below the threshold increments it by exactly 1, appending a
    `detailFail` event (plus the `refresh` event at the threshold). -/
theorem c8_failure_counter_per_page (cfg : FetchCfg) (env : FetchEnv)
    (st : FetchState) (e : Elem) (hinv : st.consecutive_failures ≤ 4) :
    (processElem cfg env st e).consecutive_failures ≤ 4 ∧
    ((processElem cfg env st e).refreshes = st.refreshes + 1 ↔
      (elemDetailFailed cfg env e = true ∧ st.consecutive_failures = 4)) ∧
    (elemDetailFailed cfg env e = false →
      (processElem cfg env st e).consecutive_failures = st.consecutive_failures ∨
      (processElem cfg env st e).consecutive_failures = 0) ∧
    (elemDetailFailed cfg env e = true → st.consecutive_failures < 4 →
      (processElem cfg env st e).consecutive_failures = st.consecutive_failures + 1) ∧
    (elemDetailFailed cfg env e = true →
      (processElem cfg env st e).events = st.events ++
        (if st.consecutive_failures = 4 then [FEvent.detailFail, FEvent.refresh]
         else [FEvent.detailFail])) := by
  have hrne : ¬ st.refreshes = st.refreshes + 1 := by omega
  rcases e with ⟨basic, det⟩
  cases basic with
  | none =>
    refine ⟨?_, ?_, ?_, ?_, ?_⟩ <;>
      (simp [processElem, elemDetailFailed, hrne, hinv] <;> omega)
  | some b =>
    by_cases hsold : strContains (strLower b.title) "sold" = true
    · refine ⟨?_, ?_, ?_, ?_, ?_⟩ <;>
        (simp [processElem, elemDetailFailed, hsold, hrne, hinv] <;> omega)
    · have hsold' : strContains (strLower b.title) "sold" = false :=
        Bool.eq_false_iff.mpr hsold
      by_cases hknown : b.id ∈ cfg.known_ids
      · refine ⟨?_, ?_, ?_, ?_, ?_⟩ <;>
          (simp [processElem, elemDetailFailed, hsold', hknown, hrne, hinv] <;>
            omega)
      · by_cases hfd : (cfg.fetch_details && !b.url.isEmpty) = true
        · by_cases hsent :
              (_fetch_detail_page env det b.url).title = some "__SOLD__"
          · refine ⟨?_, ?_, ?_, ?_, ?_⟩ <;>
              (simp [processElem, elemDetailFailed, hsold', hknown, hfd, hsent,
                hrne, hinv] <;> omega)
          · by_cases hdf : ((_fetch_detail_page env det b.url).title = none ∧
                (_fetch_detail_page env det b.url).description = none)
            · by_cases hc4 : st.consecutive_failures = 4
              · have hge : st.consecutive_failures + 1 ≥ 5 := by omega
                refine ⟨?_, ?_, ?_, ?_, ?_⟩ <;>
                  (simp [processElem, elemDetailFailed, hsold', hknown, hfd,
                    hsent, hdf.1, hdf.2, hc4, hge] <;> omega)
              · have hlt : ¬ st.consecutive_failures + 1 ≥ 5 := by omega
                refine ⟨?_, ?_, ?_, ?_, ?_⟩ <;>
                  (simp [processElem, elemDetailFailed, hsold', hknown, hfd,
                    hsent, hdf.1, hdf.2, hc4, hlt, hrne] <;> omega)
            · have hdf' : ¬ ((_fetch_detail_page env det b.url).title = none ∧
                  (_fetch_detail_page env det b.url).description = none) := hdf
              refine ⟨?_, ?_, ?_, ?_, ?_⟩ <;>
                (simp [processElem, elemDetailFailed, hsold', hknown, hfd,
                  hsent, hrne, hdf', hinv] <;> omega)
        · have hfd' : (cfg.fetch_details && !b.url.isEmpty) = false :=
            Bool.eq_false_iff.mpr hfd
          refine ⟨?_, ?_, ?_, ?_, ?_⟩ <;>
            (simp [processElem, elemDetailFailed, hsold', hknown, hfd', hrne,
              hinv] <;> omega)

/-- State with the counter one failure short of the refresh threshold. -/
def st4 : FetchState :=
  { fetched := 0, skipped := 0, consecutive_failures := 4, refreshes := 0,
    out := [], events := [] }

/-- **C8 witness**: the amended theorem applied to a concrete failing
    element arriving with the counter at 4 — the step refreshes the context
    and resets the counter. -/
theorem c8_failure_counter_per_page_witness :
    (processElem cfg7 env7 st4 e7).consecutive_failures ≤ 4 ∧
    ((processElem cfg7 env7 st4 e7).refreshes = st4.refreshes + 1 ↔
      (elemDetailFailed cfg7 env7 e7 = true ∧ st4.consecutive_failures = 4)) ∧
    (elemDetailFailed cfg7 env7 e7 = false →
      (processElem cfg7 env7 st4 e7).consecutive_failures =
        st4.consecutive_failures ∨
      (processElem cfg7 env7 st4 e7).consecutive_failures = 0) ∧
    (elemDetailFailed cfg7 env7 e7 = true → st4.consecutive_failures < 4 →
      (processElem cfg7 env7 st4 e7).consecutive_failures =
        st4.consecutive_failures + 1) ∧
    (elemDetailFailed cfg7 env7 e7 = true →
      (processElem cfg7 env7 st4 e7).events = st4.events ++
        (if st4.consecutive_failures = 4 then [FEvent.detailFail, FEvent.refresh]
         else [FEvent.detailFail])) :=
  c8_failure_counter_per_page cfg7 env7 st4 e7 (by decide)
